import Mathlib

/-!
# Verification of the production-dashboard aggregation engine

A shallow embedding of the pure computation core of the dashboard backend
(`src/backend/database.py` and `src/backend/main.py`):

* the break-time calendar (`calculate_break_time`),
* live/historical window resolution and per-model metrics
  (`get_production_data`),
* the multi-unit report rollup (`get_report_data`),
* the single-unit historical endpoint error routing (`get_historical_data`),
* the hourly bucket generation (`get_historical_hourly_data`),
* the websocket inbound-message handling step.

Instants are modelled as integer second counts on the fixed UTC+3 local
timeline (the code normalizes every datetime to one fixed offset before
computing); calendar days are `t / 86400`, time of day is `t % 86400`.
Counts are naturals, derived metrics are rationals, and Python `None` is
`Option.none`.
-/

namespace ReDashboard

/-- A shift break: time-of-day start and end, in seconds after local midnight.
Mirrors one entry of `SHIFT_BREAKS` in `database.py`. -/
structure ShiftBreak where
  startOfDay : Int
  endOfDay : Int
deriving DecidableEq

/-- `SHIFT_BREAKS['a']`: 10:00-10:15. -/
def breakA : ShiftBreak := ⟨36000, 36900⟩
/-- `SHIFT_BREAKS['b']`: 12:00-12:30. -/
def breakB : ShiftBreak := ⟨43200, 45000⟩
/-- `SHIFT_BREAKS['c']`: 16:00-16:15. -/
def breakC : ShiftBreak := ⟨57600, 58500⟩
/-- `SHIFT_BREAKS['d']`: 18:00-18:30. -/
def breakD : ShiftBreak := ⟨64800, 66600⟩
/-- `SHIFT_BREAKS['e']`: 20:00-20:30. -/
def breakE : ShiftBreak := ⟨72000, 73800⟩
/-- `SHIFT_BREAKS['f']`: 22:00-22:15. -/
def breakF : ShiftBreak := ⟨79200, 80100⟩
/-- `SHIFT_BREAKS['g']`: 00:00-00:30. -/
def breakG : ShiftBreak := ⟨0, 1800⟩
/-- `SHIFT_BREAKS['h']`: 03:00-03:15. -/
def breakH : ShiftBreak := ⟨10800, 11700⟩
/-- `SHIFT_BREAKS['i']`: 05:00-05:30. -/
def breakI : ShiftBreak := ⟨18000, 19800⟩

/-- `WORKING_MODE_BREAKS` together with the fallback
`if working_mode not in WORKING_MODE_BREAKS: working_mode = 'mode1'`:
every unrecognized mode resolves to the `mode1` break list. -/
def applicable_breaks (working_mode : String) : List ShiftBreak :=
  if working_mode = "mode2" then [breakA, breakB, breakC, breakF, breakG, breakH, breakI]
  else if working_mode = "mode3" then [breakA, breakB, breakC, breakD, breakF, breakG, breakH, breakI]
  else [breakA, breakB, breakE, breakF, breakH, breakI]

/-- One iteration of the inner day loop of `calculate_break_time`: place break
`b` on calendar day `d`, extend its end by one day when the end-of-day time
precedes the start-of-day time (midnight wrap), clip against the window, and
contribute the clipped duration when non-empty. -/
def breakOverlap (b : ShiftBreak) (d start_time end_time : Int) : Int :=
  let break_start_dt := d * 86400 + b.startOfDay
  let break_end_dt := d * 86400 + b.endOfDay + (if b.endOfDay < b.startOfDay then 86400 else 0)
  let overlap_start := max start_time break_start_dt
  let overlap_end := min end_time break_end_dt
  if overlap_start < overlap_end then overlap_end - overlap_start else 0

/-- The calendar days iterated by `calculate_break_time`:
`start_time.date()` up to `end_time.date()` inclusive. -/
def dayRange (start_time end_time : Int) : Finset Int :=
  Finset.Icc (start_time / 86400) (end_time / 86400)

/-- `calculate_break_time(start_time, end_time, working_mode)` from
`database.py`: total break seconds overlapping the window, summed over every
applicable break and every calendar day the window touches. -/
def calculate_break_time (start_time end_time : Int) (working_mode : String) : Int :=
  ((applicable_breaks working_mode).map
    (fun b => (dayRange start_time end_time).sum
      (fun d => breakOverlap b d start_time end_time))).sum

/-! ## Window resolution and per-model metrics (`get_production_data`) -/

/-- One query-result row of the grouped count query:
`(Model, SuccessQty, FailQty, Target)`, with `Target` nullable.  The counts
are row counts produced by `SUM(CASE WHEN ... THEN 1 ELSE 0 END)` and are
therefore naturals. -/
structure ProductionRow where
  model : String
  success_qty : Nat
  fail_qty : Nat
  target : Option Rat
deriving DecidableEq

/-- One element of the `results` list built by `get_production_data`.
`oee` is carried because the code sets it, though it stays `none`. -/
structure ModelData where
  model : String
  success_qty : Nat
  fail_qty : Nat
  target : Option Rat
  total_qty : Nat
  quality : Rat
  performance : Option Rat
  oee : Option Rat
  theoretical_qty : Rat
deriving DecidableEq, Inhabited

/-- The recurring test `row[3] is not None and row[3] > 0`
(also written `m['target'] and m['target'] > 0` in `main.py`, where a `None`
or zero target is falsy). -/
def targetPositive : Option Rat → Bool
  | some t => t > 0
  | none => false

/-- Lines 128-162 of `database.py`: compute
`(final_query_end_time, actual_end_time)` from the requested window and the
optional reference instant `current_time`.  `actual_end_time` starts as
`current_time` (or `end_time` when absent), is clamped up to `start_time`,
and when `current_time - end_time` exceeds five minutes both ends fall back
to the requested `end_time` (historical data). -/
def resolveWindow (start_time end_time : Int) (current_time : Option Int) : Int × Int :=
  let actual_end_time := match current_time with
    | some now => now
    | none => end_time
  let actual_end_time := if actual_end_time < start_time then start_time else actual_end_time
  let query_end_time := end_time
  match current_time with
  | some now =>
      if now - query_end_time ≤ 300 then (actual_end_time, actual_end_time)
      else (query_end_time, query_end_time)
  | none => (query_end_time, actual_end_time)

/-- The first pass of the row loop in `get_production_data` (lines 196-215):
build `model_data` with `total_qty = row[1]`, the quality ratio, a `None`
performance, and the first-pass theoretical quantity. -/
def firstPassRow (operation_time_hours : Rat) (row : ProductionRow) : ModelData :=
  { model := row.model
    success_qty := row.success_qty
    fail_qty := row.fail_qty
    target := row.target
    total_qty := row.success_qty
    quality := if row.success_qty + row.fail_qty > 0 then
        (row.success_qty : Rat) / ((row.success_qty : Rat) + (row.fail_qty : Rat))
      else 0
    performance := none
    oee := none
    theoretical_qty := match row.target with
      | some t => if t > 0 then operation_time_hours * t else 0
      | none => 0 }

/-- The second pass (lines 217-229), taken when `models_with_target` is
non-empty: recompute the theoretical quantity for every target-bearing model
and derive `performance = total_qty / theoretical_qty` (or `0` on a zero
theoretical quantity); non-target models get `theoretical_qty = 0` and a
`None` performance. -/
def secondPassRow (operation_time_hours : Rat) (md : ModelData) : ModelData :=
  match md.target with
  | some t =>
      if t > 0 then
        let individual_theoretical_qty := operation_time_hours * t
        { md with
          theoretical_qty := individual_theoretical_qty
          performance := if individual_theoretical_qty > 0 then
              some ((md.total_qty : Rat) / individual_theoretical_qty)
            else some 0 }
      else { md with theoretical_qty := 0, performance := none }
  | none => { md with theoretical_qty := 0, performance := none }

/-- The else branch (lines 230-233), taken when `models_with_target` is
empty: set `performance = 0` for target-bearing models (vacuous in that
branch), leave the rest untouched. -/
def noTargetPassRow (md : ModelData) : ModelData :=
  match md.target with
  | some t => if t > 0 then { md with performance := some 0 } else md
  | none => md

/-- The pure business logic of `get_production_data` (lines 128-235 of
`database.py`), with the externally fetched query rows passed in: resolve
the effective end, derive operating hours net of break time, run the first
pass over the rows, and apply the two-pass rule keyed on whether any model
is target-bearing (`models_with_target` non-empty). -/
def get_production_data (rows : List ProductionRow) (start_time end_time : Int)
    (current_time : Option Int) (working_mode : String) : List ModelData :=
  let actual_end_time := (resolveWindow start_time end_time current_time).2
  let operation_time_total := actual_end_time - start_time
  let break_time := calculate_break_time start_time actual_end_time working_mode
  let operation_time := max (operation_time_total - break_time) 0
  let operation_time_hours : Rat := (operation_time : Rat) / 3600
  let results := rows.map (firstPassRow operation_time_hours)
  if rows.any (fun row => targetPositive row.target) then
    results.map (secondPassRow operation_time_hours)
  else
    results.map noTargetPassRow

/-! ## Live checks of the websocket endpoints (`main.py`) -/

/-- Lines 588-594 of `main.py` (`hourly_websocket_endpoint`): the hourly
breakdown's live check uses the **absolute** difference,
`abs((current_time - end_time).total_seconds()) <= 300`. -/
def is_live_data (current_time end_time : Int) : Bool :=
  |current_time - end_time| ≤ 300

/-- Lines 459-462 of `main.py` (`websocket_endpoint` summary): the standard
channel clamps `actual_end` to `current_time` exactly when
`current_time - end_time <= 5 minutes`, with no lower bound. -/
def ws_actual_end (end_time current_time : Int) : Int :=
  if current_time - end_time ≤ 300 then current_time else end_time

/-! ## Hourly bucket generation (`get_historical_hourly_data`, `main.py`) -/

/-- `start_dt.replace(minute=0, second=0, microsecond=0)`: floor an instant
to its calendar hour on the fixed-offset timeline. -/
def floorHour (t : Int) : Int := (t / 3600) * 3600

/-- The bucket loop of `get_historical_hourly_data` (lines 317-372 of
`main.py`), success path: starting from a cursor, emit
`(current_hour, hour_end)` with `hour_end = min(current_hour + 1h, end_dt)`
and advance the cursor to `hour_end` while `current_hour < end_dt`. -/
def bucketsFrom (current_hour end_dt : Int) : List (Int × Int) :=
  if h : current_hour < end_dt then
    (current_hour, min (current_hour + 3600) end_dt) ::
      bucketsFrom (min (current_hour + 3600) end_dt) end_dt
  else []
termination_by (end_dt - current_hour).toNat
decreasing_by omega

/-- The bucket list produced for a requested window: the cursor starts at
`start_dt` floored to the hour (line 312 of `main.py`). -/
def historical_hourly_buckets (start_dt end_dt : Int) : List (Int × Int) :=
  bucketsFrom (floorHour start_dt) end_dt

/-- `hour_partition lo hi bs`: `bs` tiles `[lo, hi)` contiguously — each
bucket starts where the previous one ended, is non-empty, spans exactly one
hour unless it is the final bucket ending at `hi` (then at most one hour),
and the last bucket ends at `hi`. -/
def hour_partition : Int → Int → List (Int × Int) → Prop
  | lo, hi, [] => lo = hi
  | lo, hi, (a, b) :: rest =>
      a = lo ∧ lo < b ∧ (b = lo + 3600 ∨ (b = hi ∧ b ≤ lo + 3600)) ∧ hour_partition b hi rest

/-! ## Multi-unit report rollup (`get_report_data`, `main.py`) -/

/-- Outcome of one unit's (or one bucket's) production query, wrapped in
`asyncio.wait_for(..., timeout=30.0)`: rows, a timeout, or a collaborator
error. -/
inductive QueryOutcome where
  | ok (production_data : List ModelData)
  | timeout
  | failure (detail : String)

/-- The per-unit summary assembled in lines 192-208 of `main.py`. -/
structure UnitData where
  total_success : Nat
  total_fail : Nat
  total_qty : Nat
  quality : Rat
  performance_sum : Rat
  models : List ModelData

/-- Lines 192-208 of `main.py`: per-unit sums, quality ratio, and the raw
(non-averaged) sum of non-`None` model performances. -/
def unitDataOf (production_data : List ModelData) : UnitData :=
  let unit_success := (production_data.map (·.success_qty)).sum
  let unit_fail := (production_data.map (·.fail_qty)).sum
  let unit_total := unit_success + unit_fail
  { total_success := unit_success
    total_fail := unit_fail
    total_qty := unit_total
    quality := if unit_total > 0 then (unit_success : Rat) / (unit_total : Rat) else 0
    performance_sum := (production_data.filterMap (·.performance)).sum
    models := production_data }

/-- The accumulators of the unit loop in `get_report_data`
(lines 169-218 of `main.py`). -/
structure ReportAcc where
  unit_data : List (String × UnitData)
  total_success_all : Nat
  total_fail_all : Nat
  weighted_quality_sum : Rat
  weighted_performance_sum : Rat
  total_production_all : Nat
  total_success_weight : Nat

/-- The accumulators' initial values (lines 169-175 of `main.py`). -/
def reportInit : ReportAcc := ⟨[], 0, 0, 0, 0, 0, 0⟩

/-- One iteration of the unit loop (lines 177-218 of `main.py`): a timeout
or database error skips the unit (`continue`); a successful query adds the
unit's summary and updates every accumulator, weighting quality by total
quantity and performance by success count. -/
def reportStep (acc : ReportAcc) (entry : String × QueryOutcome) : ReportAcc :=
  match entry.2 with
  | .timeout => acc
  | .failure _ => acc
  | .ok production_data =>
      let u := unitDataOf production_data
      { unit_data := acc.unit_data ++ [(entry.1, u)]
        total_success_all := acc.total_success_all + u.total_success
        total_fail_all := acc.total_fail_all + u.total_fail
        weighted_quality_sum := acc.weighted_quality_sum +
          (if u.total_qty > 0 then u.quality * (u.total_qty : Rat) else 0)
        weighted_performance_sum := acc.weighted_performance_sum +
          (if u.total_success > 0 then u.performance_sum * (u.total_success : Rat) else 0)
        total_production_all := acc.total_production_all + u.total_qty
        total_success_weight := acc.total_success_weight +
          (if u.total_success > 0 then u.total_success else 0) }

/-- The unit loop of `get_report_data` over the per-unit query outcomes. -/
def get_report_data (unit_results : List (String × QueryOutcome)) : ReportAcc :=
  unit_results.foldl reportStep reportInit

/-- The `summary` object built in lines 220-231 of `main.py`. -/
structure ReportSummary where
  total_success : Nat
  total_fail : Nat
  total_production : Nat
  weighted_quality : Rat
  weighted_performance : Rat

/-- Lines 220-231 of `main.py`: overall weighted quality and performance,
each `0` when its weight sum is `0`. -/
def report_summary (unit_results : List (String × QueryOutcome)) : ReportSummary :=
  let acc := get_report_data unit_results
  { total_success := acc.total_success_all
    total_fail := acc.total_fail_all
    total_production := acc.total_production_all
    weighted_quality := if acc.total_production_all > 0 then
        acc.weighted_quality_sum / (acc.total_production_all : Rat)
      else 0
    weighted_performance := if acc.total_success_weight > 0 then
        acc.weighted_performance_sum / (acc.total_success_weight : Rat)
      else 0 }

/-- The unit summaries of the units whose query succeeded, in order — the
units the spec's weighted sums range over. -/
def included_units (unit_results : List (String × QueryOutcome)) : List UnitData :=
  unit_results.filterMap fun entry =>
    match entry.2 with
    | .ok production_data => some (unitDataOf production_data)
    | _ => none

/-- Modelled from the spec (refinement comparison for C5):
`weightedQuality = Σ(unit.quality * unit.totalQty) / Σ(unit.totalQty)`,
and `0` if the denominator is `0`. -/
def spec_weighted_quality (units : List UnitData) : Rat :=
  let denom := (units.map fun u => (u.total_qty : Rat)).sum
  if denom = 0 then 0
  else (units.map fun u => u.quality * (u.total_qty : Rat)).sum / denom

/-! ## Single-unit historical endpoint (`get_historical_data`, `main.py`) -/

/-- The distinct errors surfaced by `get_historical_data`
(lines 255-258 of `main.py`): HTTP 504 on a query timeout, HTTP 500 on a
database error. -/
inductive HistError where
  | queryTimeout (detail : String)
  | databaseError (detail : String)
deriving DecidableEq

/-- The response object of `get_historical_data` (lines 288-298). -/
structure HistoricalResponse where
  unit_name : String
  total_success : Nat
  total_fail : Nat
  total_qty : Nat
  total_quality : Rat
  total_performance : Rat
  unit_performance_sum : Rat
  total_theoretical_qty : Rat
  models : List ModelData

/-- `get_historical_data` (lines 242-302 of `main.py`) with the query outcome
passed in: a timeout or database error is surfaced to the caller as a
distinct error; on success the totals, the weighted-target-rate performance
(`None` reported as `0`), and the model list are returned.  Inside
`models_with_target` every target is positive, so `m.target.getD 0` reads
the same value as the Python `m['target']`. -/
def get_historical_data (unit_name : String) (outcome : QueryOutcome)
    (start_dt end_dt : Int) (working_mode : String) :
    Except HistError HistoricalResponse :=
  match outcome with
  | .timeout => .error (.queryTimeout "Database query timeout - try a smaller time range")
  | .failure detail => .error (.databaseError detail)
  | .ok production_data =>
      let total_success := (production_data.map (·.success_qty)).sum
      let total_fail := (production_data.map (·.fail_qty)).sum
      let total_qty := (production_data.map (·.total_qty)).sum
      let total_processed := total_success + total_fail
      let total_quality : Rat := if total_processed > 0 then
          (total_success : Rat) / (total_processed : Rat)
        else 0
      let models_with_target := production_data.filter fun m => targetPositive m.target
      let perf_and_theoretical : Option Rat × Rat :=
        if models_with_target.isEmpty then (none, 0)
        else
          let operation_time_total := end_dt - start_dt
          let break_time := calculate_break_time start_dt end_dt working_mode
          let operation_time := max (operation_time_total - break_time) 0
          let total_actual_qty := (models_with_target.map (·.total_qty)).sum
          if total_actual_qty > 0 then
            let weighted_target_rate := (models_with_target.map fun m =>
              ((m.total_qty : Rat) / (total_actual_qty : Rat)) * m.target.getD 0).sum
            let total_theoretical_qty := ((operation_time : Rat) / 3600) * weighted_target_rate
            (some (if total_theoretical_qty > 0 then
                (total_actual_qty : Rat) / total_theoretical_qty
              else 0),
             total_theoretical_qty)
          else (none, 0)
      let unit_performance_sum := (production_data.filterMap (·.performance)).sum
      .ok { unit_name := unit_name
            total_success := total_success
            total_fail := total_fail
            total_qty := total_qty
            total_quality := total_quality
            total_performance := perf_and_theoretical.1.getD 0
            unit_performance_sum := unit_performance_sum
            total_theoretical_qty := perf_and_theoretical.2
            models := production_data }

/-! ## Streaming sessions: inbound message handling (`main.py`) -/

/-- The mutable parameters a streaming session holds between iterations:
the unit name (fixed from the URL path) and the window/mode last supplied
by the client. -/
structure SessionParams where
  unit_name : String
  start_time : Int
  end_time : Int
  working_mode : String
deriving DecidableEq

/-- An inbound client message after `json.loads`: either a heartbeat marker
(`new_params.get('heartbeat')` truthy) or a parameter update carrying a new
window and working mode. -/
inductive ClientMessage where
  | heartbeat
  | params (start_time end_time : Int) (working_mode : String)

/-- The only reply sent from the message-wait branch: the heartbeat
acknowledgement `{"heartbeat": True, "timestamp": time.time()}`. -/
inductive ServerReply where
  | heartbeatAck (timestamp : Int)
deriving DecidableEq

/-- Lines 497-506 of `main.py` (`websocket_endpoint`): on a heartbeat,
send the acknowledgement and keep the session parameters; otherwise parse
the message and rebind `start_time, end_time, working_mode` (the unit name
comes from the URL and is never rebound). -/
def handle_stream_message (st : SessionParams) (msg : ClientMessage) (now_ts : Int) :
    SessionParams × Option ServerReply :=
  match msg with
  | .heartbeat => (st, some (.heartbeatAck now_ts))
  | .params s e m =>
      ({ st with start_time := s, end_time := e, working_mode := m }, none)

/-- Lines 689-698 of `main.py` (`hourly_websocket_endpoint`): the identical
message-wait branch of the hourly channel. -/
def handle_hourly_stream_message (st : SessionParams) (msg : ClientMessage) (now_ts : Int) :
    SessionParams × Option ServerReply :=
  match msg with
  | .heartbeat => (st, some (.heartbeatAck now_ts))
  | .params s e m =>
      ({ st with start_time := s, end_time := e, working_mode := m }, none)

/-! ## Field-preservation lemmas for the two passes -/

example : calculate_break_time 36000 45000 "mode1" = 2700 := by decide
example : calculate_break_time 46800 50400 "mode1" = 0 := by decide

lemma get_production_data_eq (rows : List ProductionRow) (s e : Int) (now : Option Int)
    (m : String) :
    ∃ h : Rat, get_production_data rows s e now m =
      if rows.any (fun row => targetPositive row.target) then
        (rows.map (firstPassRow h)).map (secondPassRow h)
      else
        (rows.map (firstPassRow h)).map noTargetPassRow :=
  ⟨_, rfl⟩

lemma secondPassRow_success_qty (h : Rat) (md : ModelData) :
    (secondPassRow h md).success_qty = md.success_qty := by
  unfold secondPassRow; split <;> (try split) <;> rfl

lemma secondPassRow_fail_qty (h : Rat) (md : ModelData) :
    (secondPassRow h md).fail_qty = md.fail_qty := by
  unfold secondPassRow; split <;> (try split) <;> rfl

lemma secondPassRow_total_qty (h : Rat) (md : ModelData) :
    (secondPassRow h md).total_qty = md.total_qty := by
  unfold secondPassRow; split <;> (try split) <;> rfl

lemma secondPassRow_quality (h : Rat) (md : ModelData) :
    (secondPassRow h md).quality = md.quality := by
  unfold secondPassRow; split <;> (try split) <;> rfl

lemma noTargetPassRow_success_qty (md : ModelData) :
    (noTargetPassRow md).success_qty = md.success_qty := by
  unfold noTargetPassRow; split <;> (try split) <;> rfl

lemma noTargetPassRow_fail_qty (md : ModelData) :
    (noTargetPassRow md).fail_qty = md.fail_qty := by
  unfold noTargetPassRow; split <;> (try split) <;> rfl

lemma noTargetPassRow_total_qty (md : ModelData) :
    (noTargetPassRow md).total_qty = md.total_qty := by
  unfold noTargetPassRow; split <;> (try split) <;> rfl

lemma noTargetPassRow_quality (md : ModelData) :
    (noTargetPassRow md).quality = md.quality := by
  unfold noTargetPassRow; split <;> (try split) <;> rfl

lemma noTargetPassRow_performance_of_no_target (md : ModelData)
    (h : targetPositive md.target = false) :
    (noTargetPassRow md).performance = md.performance := by
  unfold noTargetPassRow
  cases hm : md.target with
  | none => rfl
  | some t =>
      have ht : ¬ t > 0 := by
        rw [hm] at h
        simpa [targetPositive] using h
      dsimp only
      rw [if_neg ht]

/-- The quality formula of the first pass is a ratio of the row's counts:
in `[0, 1]` for a non-empty denominator and `0` otherwise. -/
lemma firstPassRow_quality_bounds (h : Rat) (row : ProductionRow) :
    (0 < row.success_qty + row.fail_qty →
      0 ≤ (firstPassRow h row).quality ∧ (firstPassRow h row).quality ≤ 1) ∧
    (row.success_qty + row.fail_qty = 0 → (firstPassRow h row).quality = 0) := by
  have hq : (firstPassRow h row).quality =
      if row.success_qty + row.fail_qty > 0 then
        (row.success_qty : Rat) / ((row.success_qty : Rat) + (row.fail_qty : Rat))
      else 0 := rfl
  constructor
  · intro hpos
    rw [hq, if_pos hpos]
    have hden : (0 : Rat) < (row.success_qty : Rat) + (row.fail_qty : Rat) := by
      exact_mod_cast hpos
    constructor
    · exact div_nonneg (by positivity) hden.le
    · rw [div_le_one hden]
      linarith [Nat.cast_nonneg (α := Rat) row.fail_qty]
  · intro hzero
    rw [hq, if_neg (by omega)]

/-! ## Claim theorems on `get_production_data` -/

/-- C1 (counterexample): the invariant `totalCount = successCount + failCount`
fails on the code: `get_production_data` sets `total_qty = row[1]`, the
success count alone, so a row with one success and one failure yields
`total_qty = 1` while `successCount + failCount = 2`. -/
theorem C1_counterexample :
    ¬ (∀ md ∈ get_production_data [⟨"M", 1, 1, none⟩] 0 3600 none "mode1",
        md.total_qty = md.success_qty + md.fail_qty) := by
  intro hall
  have hmem : (get_production_data [⟨"M", 1, 1, none⟩] 0 3600 none "mode1").head! ∈
      get_production_data [⟨"M", 1, 1, none⟩] 0 3600 none "mode1" :=
    List.head!_mem_self (by decide)
  have heq := hall _ hmem
  have hne : (get_production_data [⟨"M", 1, 1, none⟩] 0 3600 none "mode1").head!.total_qty ≠
      (get_production_data [⟨"M", 1, 1, none⟩] 0 3600 none "mode1").head!.success_qty +
      (get_production_data [⟨"M", 1, 1, none⟩] 0 3600 none "mode1").head!.fail_qty := by decide
  exact hne heq

/-- C1 (amended): for every row returned by `get_production_data`, the derived
record satisfies `total_qty = success_qty` — the code stores the success
count, not the success+fail sum, in `total_qty`. -/
theorem C1_amended_total_qty :
    ∀ (rows : List ProductionRow) (s e : Int) (now : Option Int) (m : String),
      ∀ md ∈ get_production_data rows s e now m, md.total_qty = md.success_qty := by
  intro rows s e now m md hmd
  obtain ⟨h, heq⟩ := get_production_data_eq rows s e now m
  rw [heq] at hmd
  split at hmd <;> rw [List.map_map] at hmd <;>
    obtain ⟨row, hrow, rfl⟩ := List.mem_map.1 hmd
  · rw [Function.comp_apply, secondPassRow_total_qty, secondPassRow_success_qty]; rfl
  · rw [Function.comp_apply, noTargetPassRow_total_qty, noTargetPassRow_success_qty]; rfl

/-- C1 witness: the amended invariant evaluated on a concrete row. -/
theorem C1_amended_total_qty_witness :
    (get_production_data [⟨"M", 2, 3, none⟩] 0 3600 none "mode1").head!.total_qty =
      (get_production_data [⟨"M", 2, 3, none⟩] 0 3600 none "mode1").head!.success_qty :=
  C1_amended_total_qty [⟨"M", 2, 3, none⟩] 0 3600 none "mode1" _
    (List.head!_mem_self (by decide))

/-- C2 (counterexample): a row with `successCount=80, failCount=20,
targetRate=100` over the one-hour break-free window 13:00-14:00 (historical:
`now` far past the end) yields performance `4/5`, not the claimed `1`,
because the performance numerator is `total_qty = successCount = 80`. -/
theorem C2_counterexample :
    ¬ ((get_production_data [⟨"M", 80, 20, some 100⟩] 46800 50400 (some 100000) "mode1").map
        (fun md => md.performance) = [some 1]) := by
  have hb : calculate_break_time 46800 50400 "mode1" = 0 := by decide
  have hr : resolveWindow 46800 50400 (some 100000) = (50400, 50400) := by decide
  intro hcl
  rw [show (get_production_data [⟨"M", 80, 20, some 100⟩] 46800 50400 (some 100000)
      "mode1") = _ from rfl] at hcl
  simp only [get_production_data, hr, hb] at hcl
  norm_num [firstPassRow, secondPassRow, targetPositive, List.any] at hcl

/-- C2 (amended): the same row and window yield `quality = 4/5`,
`theoretical_qty = 100` and `performance = 4/5` (the code divides
`total_qty = successCount` by the theoretical quantity). -/
theorem C2_amended_metrics :
    (get_production_data [⟨"M", 80, 20, some 100⟩] 46800 50400 (some 100000) "mode1").map
      (fun md => (md.quality, md.theoretical_qty, md.performance)) =
    [(4/5, 100, some (4/5))] := by
  have hb : calculate_break_time 46800 50400 "mode1" = 0 := by decide
  have hr : resolveWindow 46800 50400 (some 100000) = (50400, 50400) := by decide
  simp only [get_production_data, hr, hb]
  norm_num [firstPassRow, secondPassRow, targetPositive, List.any]

/-- C4 (confirmed): when no row of the batch has a positive target rate,
`models_with_target` stays empty, the else branch of the two-pass rule runs,
and every model's performance remains `None`, never `0`. -/
theorem C4_no_target_null_performance :
    ∀ (rows : List ProductionRow) (s e : Int) (now : Option Int) (m : String),
      (∀ row ∈ rows, targetPositive row.target = false) →
      ∀ md ∈ get_production_data rows s e now m, md.performance = none := by
  intro rows s e now m hnone md hmd
  obtain ⟨h, heq⟩ := get_production_data_eq rows s e now m
  have hany : rows.any (fun row => targetPositive row.target) = false := by
    rw [List.any_eq_false]
    intro row hrow
    rw [hnone row hrow]
    exact Bool.false_ne_true
  rw [heq, if_neg (by rw [hany]; exact Bool.false_ne_true), List.map_map] at hmd
  obtain ⟨row, hrow, rfl⟩ := List.mem_map.1 hmd
  rw [Function.comp_apply,
    noTargetPassRow_performance_of_no_target _ (by rw [show (firstPassRow h row).target = row.target from rfl]; exact hnone row hrow)]
  rfl

/-- C4 witness: a concrete two-row batch with a `None` target and a zero
target keeps both performances `None`. -/
theorem C4_no_target_null_performance_witness :
    (get_production_data [⟨"M1", 4, 1, none⟩, ⟨"M2", 7, 0, some 0⟩] 0 3600 none
      "mode1").head!.performance = none :=
  C4_no_target_null_performance [⟨"M1", 4, 1, none⟩, ⟨"M2", 7, 0, some 0⟩] 0 3600 none "mode1"
    (by decide) _ (List.head!_mem_self (by decide))

/-- C8 (confirmed): every model's quality is in `[0, 1]` whenever
`successCount + failCount > 0`, and exactly `0` when the sum is `0`. -/
theorem C8_quality_bounds :
    ∀ (rows : List ProductionRow) (s e : Int) (now : Option Int) (m : String),
      ∀ md ∈ get_production_data rows s e now m,
        (0 < md.success_qty + md.fail_qty → 0 ≤ md.quality ∧ md.quality ≤ 1) ∧
        (md.success_qty + md.fail_qty = 0 → md.quality = 0) := by
  intro rows s e now m md hmd
  obtain ⟨h, heq⟩ := get_production_data_eq rows s e now m
  rw [heq] at hmd
  split at hmd <;> rw [List.map_map] at hmd <;>
    obtain ⟨row, hrow, rfl⟩ := List.mem_map.1 hmd
  · simpa only [Function.comp_apply, secondPassRow_success_qty, secondPassRow_fail_qty,
      secondPassRow_quality, show (firstPassRow h row).success_qty = row.success_qty from rfl,
      show (firstPassRow h row).fail_qty = row.fail_qty from rfl] using
      firstPassRow_quality_bounds h row
  · simpa only [Function.comp_apply, noTargetPassRow_success_qty, noTargetPassRow_fail_qty,
      noTargetPassRow_quality, show (firstPassRow h row).success_qty = row.success_qty from rfl,
      show (firstPassRow h row).fail_qty = row.fail_qty from rfl] using
      firstPassRow_quality_bounds h row

/-! ## Live/historical resolution across callers (C3) -/

/-- C3 (counterexample): with `window = [0, 7200]` and `now = 3600` (an hour
before the window's end, so the claim calls it historical with
`effectiveEnd = window.end = 7200`), `get_production_data`'s resolution
treats it as live and returns `effectiveEnd = 3600`: the code's test
`time_difference <= five_minutes` has no lower bound. -/
theorem C3_counterexample :
    resolveWindow 0 7200 (some 3600) = (3600, 3600) ∧ (3600 : Int) ≠ 7200 := by
  constructor
  · decide
  · decide

/-- C3 (amended): `get_production_data` resolves the window as live exactly
when `now - window.end ≤ 5 minutes` — with no lower bound, so a `now` before
`window.end` also counts as live — giving
`effectiveEnd = max(window.start, now)`; only when `now - window.end` exceeds
five minutes is the window historical with `effectiveEnd = window.end`.  The
standard websocket summary applies the same signed five-minute test, but the
hourly websocket's breakdown uses `|now - window.end| ≤ 5 minutes`, so the
callers disagree whenever `now` precedes `window.end` by more than five
minutes (e.g. `now = 0`, `end = 7200`). -/
theorem C3_amended_live_resolution :
    (∀ s e n : Int, resolveWindow s e (some n) =
      if n - e ≤ 300 then (max s n, max s n) else (e, e)) ∧
    (∀ e n : Int, ws_actual_end e n = if n - e ≤ 300 then n else e) ∧
    (∀ n e : Int, is_live_data n e = true ↔ (-300 ≤ n - e ∧ n - e ≤ 300)) ∧
    is_live_data 0 7200 = false ∧ (0 : Int) - 7200 ≤ 300 := by
  refine ⟨?_, fun e n => rfl, ?_, by decide, by decide⟩
  · intro s e n
    simp only [resolveWindow]
    split_ifs <;> (simp_all [Prod.ext_iff]; try omega)
  · intro n e
    simp only [is_live_data, decide_eq_true_eq, abs_le]

/-- C8 witness: the bounds evaluated on a concrete mixed batch. -/
theorem C8_quality_bounds_witness :
    0 ≤ (get_production_data [⟨"M", 3, 1, none⟩] 0 3600 none "mode1").head!.quality ∧
    (get_production_data [⟨"M", 3, 1, none⟩] 0 3600 none "mode1").head!.quality ≤ 1 :=
  (C8_quality_bounds [⟨"M", 3, 1, none⟩] 0 3600 none "mode1" _
    (List.head!_mem_self (by decide))).1 (by decide)

/-! ## Break-time algebra (C7) -/

lemma breakOverlap_nonneg (b : ShiftBreak) (d s e : Int) : 0 ≤ breakOverlap b d s e := by
  unfold breakOverlap
  dsimp only
  split_ifs <;> omega

lemma breakOverlap_mono (b : ShiftBreak) (d : Int) {s e s' e' : Int}
    (hs : s' ≤ s) (he : e ≤ e') :
    breakOverlap b d s e ≤ breakOverlap b d s' e' := by
  unfold breakOverlap
  dsimp only
  split_ifs <;> omega

lemma dayRange_subset {s e s' e' : Int} (hs : s' ≤ s) (he : e ≤ e') :
    dayRange s e ⊆ dayRange s' e' := by
  unfold dayRange
  exact Finset.Icc_subset_Icc (Int.ediv_le_ediv (by norm_num) hs)
    (Int.ediv_le_ediv (by norm_num) he)

/-- C7 (confirmed): `calculate_break_time` is non-negative, and widening the
window (earlier start, later end) never decreases it: each per-day clipped
overlap is non-negative and monotone in the window, and a wider window
iterates a superset of calendar days. -/
theorem C7_break_time_nonneg_monotone :
    ∀ (s e : Int) (m : String),
      0 ≤ calculate_break_time s e m ∧
      ∀ s' e' : Int, s' ≤ s → e ≤ e' →
        calculate_break_time s e m ≤ calculate_break_time s' e' m := by
  intro s e m
  constructor
  · unfold calculate_break_time
    apply List.sum_nonneg
    intro x hx
    obtain ⟨b, _, rfl⟩ := List.mem_map.1 hx
    exact Finset.sum_nonneg fun d _ => breakOverlap_nonneg b d s e
  · intro s' e' hs he
    unfold calculate_break_time
    apply List.sum_le_sum
    intro b _
    calc (dayRange s e).sum (fun d => breakOverlap b d s e)
        ≤ (dayRange s e).sum (fun d => breakOverlap b d s' e') :=
          Finset.sum_le_sum fun d _ => breakOverlap_mono b d hs he
      _ ≤ (dayRange s' e').sum (fun d => breakOverlap b d s' e') :=
          Finset.sum_le_sum_of_subset_of_nonneg (dayRange_subset hs he)
            (fun d _ _ => breakOverlap_nonneg b d s' e')

/-- C7 witness: non-negativity and monotonicity evaluated on the concrete
windows 10:00-12:00 and 10:00-12:30 of day zero. -/
theorem C7_break_time_nonneg_monotone_witness :
    0 ≤ calculate_break_time 36000 43200 "mode1" ∧
    calculate_break_time 36000 43200 "mode1" ≤ calculate_break_time 36000 45000 "mode1" :=
  ⟨(C7_break_time_nonneg_monotone 36000 43200 "mode1").1,
   (C7_break_time_nonneg_monotone 36000 43200 "mode1").2 36000 45000 (by decide) (by decide)⟩

/-! ## Hourly bucket partition (C6) -/

lemma bucketsFrom_eq (cur e : Int) :
    bucketsFrom cur e =
      if cur < e then (cur, min (cur + 3600) e) :: bucketsFrom (min (cur + 3600) e) e
      else [] := by
  rw [bucketsFrom]
  split <;> rfl

lemma bucketsFrom_partition : ∀ (n : Nat) (cur e : Int), (e - cur).toNat = n → cur ≤ e →
    hour_partition cur e (bucketsFrom cur e) := by
  intro n
  induction n using Nat.strong_induction_on with
  | _ n ih =>
    intro cur e hn hle
    rcases eq_or_lt_of_le hle with heq | hlt
    · rw [bucketsFrom_eq, if_neg (by omega)]
      exact heq
    · rw [bucketsFrom_eq, if_pos hlt]
      refine ⟨rfl, by omega, by omega, ?_⟩
      exact ih ((e - min (cur + 3600) e).toNat) (by omega) _ _ rfl (by omega)

/-- C6 (counterexample): the buckets do not partition *the window* when its
start is not hour-aligned: for the half-hour window 10:30-11:00 the single
generated bucket is `[10:00, 11:00)`, which starts before the window — the
cursor starts at `window.start` floored to the hour. -/
theorem C6_counterexample :
    ¬ hour_partition 37800 39600 (historical_hourly_buckets 37800 39600) := by
  have h0 : bucketsFrom 39600 39600 = [] := by rw [bucketsFrom_eq]; norm_num
  have hb : historical_hourly_buckets 37800 39600 = [(36000, 39600)] := by
    simp only [historical_hourly_buckets, floorHour]
    norm_num
    rw [bucketsFrom_eq]
    norm_num [min_def, h0]
  rw [hb]
  norm_num [hour_partition]

/-- C6 (amended): the buckets partition `[floorHour window.start, window.end)`
contiguously with no gaps or overlaps, each bucket one hour except a possibly
shorter final bucket ending at `window.end`; in particular the 2.5-hour
window starting at 10:00 (hour-aligned, so the floored interval is the
window itself) yields exactly the three buckets `[10:00,11:00)`,
`[11:00,12:00)`, `[12:00,12:30)`. -/
theorem C6_amended_partition :
    (∀ s e : Int, s ≤ e →
      hour_partition (floorHour s) e (historical_hourly_buckets s e)) ∧
    historical_hourly_buckets 36000 45000 =
      [(36000, 39600), (39600, 43200), (43200, 45000)] := by
  constructor
  · intro s e hse
    have hfl : floorHour s ≤ s := by unfold floorHour; omega
    show hour_partition (floorHour s) e (bucketsFrom (floorHour s) e)
    exact bucketsFrom_partition _ _ _ rfl (le_trans hfl hse)
  · have h3 : bucketsFrom 45000 45000 = [] := by rw [bucketsFrom_eq]; norm_num
    have h2 : bucketsFrom 43200 45000 = [(43200, 45000)] := by
      rw [bucketsFrom_eq]; norm_num [min_def, h3]
    have h1' : bucketsFrom 39600 45000 = [(39600, 43200), (43200, 45000)] := by
      rw [bucketsFrom_eq]; norm_num [min_def, h2]
    simp only [historical_hourly_buckets, floorHour]
    norm_num
    rw [bucketsFrom_eq]
    norm_num [min_def, h1']

/-- C6 witness: the partition property evaluated on the 2.5-hour window of
the claim's example. -/
theorem C6_amended_partition_witness :
    hour_partition (floorHour 36000) 45000 (historical_hourly_buckets 36000 45000) :=
  C6_amended_partition.1 36000 45000 (by decide)

/-! ## Multi-unit weighted quality (C5) and partial-failure semantics (C9) -/

lemma included_units_cons_ok (name : String) (pd : List ModelData)
    (rest : List (String × QueryOutcome)) :
    included_units ((name, .ok pd) :: rest) = unitDataOf pd :: included_units rest := rfl

lemma included_units_cons_timeout (name : String) (rest : List (String × QueryOutcome)) :
    included_units ((name, .timeout) :: rest) = included_units rest := rfl

lemma included_units_cons_failure (name detail : String)
    (rest : List (String × QueryOutcome)) :
    included_units ((name, .failure detail) :: rest) = included_units rest := rfl

lemma reportStep_timeout (acc : ReportAcc) (name : String) :
    reportStep acc (name, .timeout) = acc := rfl

lemma reportStep_failure (acc : ReportAcc) (name detail : String) :
    reportStep acc (name, .failure detail) = acc := rfl

/-- The `if unit_total > 0` guard on the weighted-quality accumulation is a
no-op: a unit with zero volume contributes `quality * 0 = 0` either way. -/
lemma weight_term_eq (u : UnitData) :
    (if u.total_qty > 0 then u.quality * (u.total_qty : Rat) else 0) =
      u.quality * (u.total_qty : Rat) := by
  split_ifs with h
  · rfl
  · have hz : u.total_qty = 0 := by omega
    rw [hz]
    norm_num

lemma report_foldl_totals (unit_results : List (String × QueryOutcome)) :
    ∀ acc : ReportAcc,
      (unit_results.foldl reportStep acc).total_production_all =
        acc.total_production_all + ((included_units unit_results).map (·.total_qty)).sum ∧
      (unit_results.foldl reportStep acc).weighted_quality_sum =
        acc.weighted_quality_sum +
          ((included_units unit_results).map fun u => u.quality * (u.total_qty : Rat)).sum := by
  induction unit_results with
  | nil =>
      intro acc
      simp [included_units]
  | cons entry rest ih =>
      intro acc
      obtain ⟨name, outcome⟩ := entry
      cases outcome with
      | ok pd =>
          obtain ⟨ihp, ihw⟩ := ih (reportStep acc (name, .ok pd))
          constructor
          · rw [List.foldl_cons, ihp, included_units_cons_ok, List.map_cons, List.sum_cons,
              show (reportStep acc (name, .ok pd)).total_production_all =
                acc.total_production_all + (unitDataOf pd).total_qty from rfl]
            omega
          · rw [List.foldl_cons, ihw, included_units_cons_ok, List.map_cons, List.sum_cons,
              show (reportStep acc (name, .ok pd)).weighted_quality_sum =
                acc.weighted_quality_sum +
                  (if (unitDataOf pd).total_qty > 0 then
                    (unitDataOf pd).quality * ((unitDataOf pd).total_qty : Rat) else 0) from rfl,
              weight_term_eq]
            ring
      | timeout =>
          rw [List.foldl_cons, reportStep_timeout, included_units_cons_timeout]
          exact ih acc
      | failure detail =>
          rw [List.foldl_cons, reportStep_failure, included_units_cons_failure]
          exact ih acc

/-- C5 (confirmed): the overall weighted quality of the multi-unit report is
exactly the spec's `Σ(unit.quality · unit.totalQty) / Σ(unit.totalQty)` over
the units whose query succeeded, with `0` on a zero denominator; and the
claim's two-unit example evaluates to `3/4`. -/
theorem C5_weighted_quality :
    (∀ unit_results : List (String × QueryOutcome),
        (report_summary unit_results).weighted_quality =
          spec_weighted_quality (included_units unit_results)) ∧
    (report_summary
        [("A", .ok (get_production_data [⟨"MA", 10, 0, none⟩] 0 3600 none "mode1")),
         ("B", .ok (get_production_data [⟨"MB", 5, 5, none⟩] 0 3600 none "mode1"))]).weighted_quality
      = 3/4 := by
  have hgen : ∀ unit_results : List (String × QueryOutcome),
      (report_summary unit_results).weighted_quality =
        spec_weighted_quality (included_units unit_results) := by
    intro rs
    obtain ⟨hp, hw⟩ := report_foldl_totals rs reportInit
    have hp0 : (get_report_data rs).total_production_all =
        ((included_units rs).map (·.total_qty)).sum := by
      rw [get_report_data, hp, show reportInit.total_production_all = 0 from rfl, Nat.zero_add]
    have hw0 : (get_report_data rs).weighted_quality_sum =
        ((included_units rs).map fun u => u.quality * (u.total_qty : Rat)).sum := by
      rw [get_report_data, hw, show reportInit.weighted_quality_sum = 0 from rfl, zero_add]
    have hcast : ((included_units rs).map fun u => (u.total_qty : Rat)).sum
        = ((((included_units rs).map (·.total_qty)).sum : Nat) : Rat) := by
      rw [Nat.cast_list_sum, List.map_map]
      rfl
    show (if (get_report_data rs).total_production_all > 0 then
        (get_report_data rs).weighted_quality_sum /
          ((get_report_data rs).total_production_all : Rat) else 0) = _
    rw [spec_weighted_quality, hp0, hw0, hcast]
    rcases Nat.eq_zero_or_pos ((included_units rs).map (·.total_qty)).sum with hz | hpos
    · rw [hz, if_neg (by omega), if_pos (by norm_num)]
    · rw [if_pos hpos, if_neg (by exact_mod_cast hpos.ne')]
  refine ⟨hgen, ?_⟩
  rw [hgen]
  have hb : calculate_break_time 0 3600 "mode1" = 0 := by decide
  have hr : resolveWindow 0 3600 none = (3600, 3600) := by decide
  have hA : get_production_data [⟨"MA", 10, 0, none⟩] 0 3600 none "mode1" =
      [{ model := "MA", success_qty := 10, fail_qty := 0, target := none, total_qty := 10,
         quality := 1, performance := none, oee := none, theoretical_qty := 0 }] := by
    simp only [get_production_data, hr, hb]
    norm_num [firstPassRow, noTargetPassRow, targetPositive, List.any]
  have hB : get_production_data [⟨"MB", 5, 5, none⟩] 0 3600 none "mode1" =
      [{ model := "MB", success_qty := 5, fail_qty := 5, target := none, total_qty := 5,
         quality := 1/2, performance := none, oee := none, theoretical_qty := 0 }] := by
    simp only [get_production_data, hr, hb]
    norm_num [firstPassRow, noTargetPassRow, targetPositive, List.any]
  rw [hA, hB, included_units_cons_ok, included_units_cons_ok,
    show included_units [] = [] from rfl]
  norm_num [spec_weighted_quality, unitDataOf]

/-- C9 (confirmed): a per-unit timeout or query failure is skipped by the
multi-unit report — the accumulated report over the list with the failed
unit equals the report over the remaining units, and the reported units are
exactly those whose query succeeded — while the single-unit historical
endpoint surfaces a timeout as a distinct 504-style error and a database
failure as a distinct 500-style error instead of a partial result. -/
theorem C9_partial_failure_semantics :
    (∀ (pre rest : List (String × QueryOutcome)) (name : String),
        get_report_data (pre ++ (name, .timeout) :: rest) = get_report_data (pre ++ rest)) ∧
    (∀ (pre rest : List (String × QueryOutcome)) (name detail : String),
        get_report_data (pre ++ (name, .failure detail) :: rest) =
          get_report_data (pre ++ rest)) ∧
    (∀ (name : String) (s e : Int) (m : String),
        get_historical_data name .timeout s e m =
          .error (.queryTimeout "Database query timeout - try a smaller time range")) ∧
    (∀ (name detail : String) (s e : Int) (m : String),
        get_historical_data name (.failure detail) s e m =
          .error (.databaseError detail)) ∧
    (∀ (name : String) (pd : List ModelData) (s e : Int) (m : String),
        ∃ resp, get_historical_data name (.ok pd) s e m = .ok resp) := by
  refine ⟨?_, ?_, fun name s e m => rfl, fun name detail s e m => rfl,
    fun name pd s e m => ⟨_, rfl⟩⟩
  · intro pre rest name
    rw [get_report_data, get_report_data, List.foldl_append, List.foldl_append,
      List.foldl_cons, reportStep_timeout]
  · intro pre rest name detail
    rw [get_report_data, get_report_data, List.foldl_append, List.foldl_append,
      List.foldl_cons, reportStep_failure]

/-! ## Heartbeat frame effect (C10) -/

/-- C10 (confirmed): on both streaming channels a heartbeat message produces
the acknowledgement and leaves every session parameter unchanged, while a
parameter message replaces the window and working mode (the unit name, bound
from the URL path, is never rebound) and produces no reply. -/
theorem C10_heartbeat_frame :
    (∀ (st : SessionParams) (ts : Int),
        handle_stream_message st .heartbeat ts = (st, some (.heartbeatAck ts))) ∧
    (∀ (st : SessionParams) (ts : Int),
        handle_hourly_stream_message st .heartbeat ts = (st, some (.heartbeatAck ts))) ∧
    (∀ (st : SessionParams) (ts s e : Int) (m : String),
        handle_stream_message st (.params s e m) ts =
          ({ st with start_time := s, end_time := e, working_mode := m }, none)) ∧
    (∀ (st : SessionParams) (ts s e : Int) (m : String),
        handle_hourly_stream_message st (.params s e m) ts =
          ({ st with start_time := s, end_time := e, working_mode := m }, none)) :=
  ⟨fun _ _ => rfl, fun _ _ => rfl, fun _ _ _ _ _ => rfl, fun _ _ _ _ _ => rfl⟩

end ReDashboard
